import Mathlib

/-!
Shallow embedding of the river-layout-toolkit bridge (src/lib.rs).

The bridge sits between a Wayland compositor speaking the river-layout-v3
protocol and a caller-supplied layout algorithm.  We model:

  - the algorithm trait (Layout) as a record of state-passing functions
    (the Rust trait takes &mut self, so each operation returns the new
    algorithm state alongside its Result);
  - the connection as a log of outgoing protocol messages plus a fresh-id
    counter (proxy objects are identified by Nat ids);
  - the bridge State exactly as the Rust struct State;
  - the three Dispatch impls (WlRegistry, WlOutput, RiverLayoutV3) as
    functions on State.  Rust panics (the two .expect calls on lookup of
    an unknown output / layout object) are modelled as Option.none; the
    fallible try_event returns its Result in the StepResult.error field,
    with the state and connection as they stand at the point of return,
    matching the &mut semantics of the Rust handler.
  - the dispatch loop (run) as a fold over a list of incoming events that
    stops at the first error, matching dispatch_events(&mut state)? inside
    the loop in run.
-/

namespace RiverLayout

/-- Rust struct Rectangle: one placement rectangle (x, y are i32; width,
height are u32 — no arithmetic is performed on them, so they are modelled
as Int and Nat). -/
structure Rectangle where
  x : Int
  y : Int
  width : Nat
  height : Nat
  deriving DecidableEq, Repr

/-- Rust struct GeneratedLayout: the algorithm's answer to a layout demand. -/
structure GeneratedLayout where
  layout_name : String
  views : List Rectangle
  deriving DecidableEq, Repr

/-- Rust enum Error, restricted to the variants reachable from event
dispatch (the connect/bind/io variants arise only in transport setup,
which is outside the embedded core). -/
inductive Error (ε : Type) where
  | NamespaceInUse (ns : String)
  | InvalidGeneratedLayout
  | LayoutError (e : ε)
  deriving DecidableEq, Repr

/-- Rust trait Layout: the caller-supplied algorithm.  σ is the
implementor's own state (&mut self), ε its associated Error type,
NAMESPACE the associated const. -/
structure Layout (σ ε : Type) where
  NAMESPACE : String
  user_cmd : σ → String → Option Nat → Option String → σ × Except ε Unit
  generate_layout : σ → Nat → Nat → Nat → Nat → Option String → σ × Except ε GeneratedLayout

/-- Outgoing protocol messages written to the connection, tagged with the
id of the proxy object they are sent on. -/
inductive Msg where
  | bind_output (objId : Nat) (regName : Nat)
  | get_layout (managerId : Nat) (objId : Nat) (outputId : Nat) (ns : String)
  | push_view_dimensions (objId : Nat) (x : Int) (y : Int) (width : Nat) (height : Nat) (serial : Nat)
  | commit (objId : Nat) (layout_name : String) (serial : Nat)
  | destroy (objId : Nat)
  | release (outputId : Nat)
  deriving DecidableEq, Repr

/-- The transport connection: the ordered log of messages sent so far and
a counter supplying fresh proxy-object ids. -/
structure Conn where
  msgs : List Msg
  next_id : Nat
  deriving DecidableEq, Repr

/-- Append one outgoing message to the connection log. -/
def Conn.send (c : Conn) (m : Msg) : Conn :=
  { c with msgs := c.msgs ++ [m] }

/-- Allocate a fresh proxy-object id. -/
def Conn.alloc (c : Conn) : Nat × Conn :=
  (c.next_id, { c with next_id := c.next_id + 1 })

/-- Rust struct Output: a known wl_output with its bound proxy (id and
bound version), compositor registry name, optional announced name, and
optional river_layout session object (by proxy id). -/
structure Output where
  wl_output : Nat
  wl_output_version : Nat
  reg_name : Nat
  name : Option String
  river_layout : Option Nat
  deriving DecidableEq, Repr

/-- Rust struct State: the whole bridge state. -/
structure State (σ : Type) where
  layout_manager : Nat
  last_user_cmd_tags : Option Nat
  layout : σ
  outputs : List Output
  deriving DecidableEq, Repr

/-- Result of one dispatched event: the bridge state and connection as
left by the handler, plus the handler's Result (none = Ok).  On an Err the
state and connection keep every mutation made before the return point,
exactly as with &mut references in Rust. -/
structure StepResult (σ ε : Type) where
  state : State σ
  conn : Conn
  error : Option (Error ε)
  deriving DecidableEq, Repr

/-- Output::bind — bind the advertised global (version range 1..=4,
wayrs binds the minimum of the advertised version and the range maximum)
and record a fresh Output with no name and no session. -/
def Output.bind (conn : Conn) (regName : Nat) (advertisedVersion : Nat) : Output × Conn :=
  let (id, conn) := conn.alloc
  let conn := conn.send (.bind_output id regName)
  ({ wl_output := id
     wl_output_version := min advertisedVersion 4
     reg_name := regName
     name := none
     river_layout := none }, conn)

/-- Output::drop — destroy the river_layout session object first (if any),
then release the wl_output, but only when the bound version supports the
release request (version at least 3). -/
def Output.drop (o : Output) (conn : Conn) : Conn :=
  let conn := match o.river_layout with
    | some rl => conn.send (.destroy rl)
    | none => conn
  if 3 ≤ o.wl_output_version then conn.send (.release o.wl_output) else conn

/-- Incoming wl_registry events (Global carries whether the global is an
output-type interface, which is what global.is::<WlOutput>() tests). -/
inductive RegistryEvent where
  | Global (name : Nat) (isOutput : Bool) (version : Nat)
  | GlobalRemove (name : Nat)
  deriving DecidableEq, Repr

/-- Vec::swap_remove at a valid index i: the element at i is replaced by
the last element and the vector shrinks by one. -/
def swap_remove (xs : List α) (i : Nat) : List α :=
  match xs.getLast? with
  | none => xs
  | some last => if i + 1 == xs.length then xs.dropLast else (xs.dropLast).set i last

/-- Dispatch impl for WlRegistry: a Global advertising an output-type
interface is bound and appended; GlobalRemove looks up the registry name
with position and, when found, swap_removes the Output and drops it;
an unknown name falls through silently.  This handler is infallible
(fn event, not try_event). -/
def State.registry_event (st : State σ) (conn : Conn) (ev : RegistryEvent) : State σ × Conn :=
  match ev with
  | .Global name isOutput version =>
    if isOutput then
      let (o, conn) := Output.bind conn name version
      ({ st with outputs := st.outputs ++ [o] }, conn)
    else (st, conn)
  | .GlobalRemove name =>
    match st.outputs.findIdx? (fun o => o.reg_name == name) with
    | some i =>
      match st.outputs[i]? with
      | some o => ({ st with outputs := swap_remove st.outputs i }, o.drop conn)
      | none => (st, conn)
    | none => (st, conn)

/-- Incoming wl_output events: Name announces the output's name; every
other wl_output event (geometry, mode, scale, ...) is ignored by the
handler and collapsed to one constructor. -/
inductive OutputEvent where
  | Name (s : String)
  | Other
  deriving DecidableEq, Repr

/-- Dispatch impl for WlOutput: find the Output owning this wl_output
proxy (.expect panics if absent — modelled as none); if it already has a
river_layout session the event is dropped; otherwise a Name event records
the name and immediately requests a layout object for this output under
the caller's namespace. -/
def State.output_event (ns : String) (st : State σ) (conn : Conn) (wl : Nat)
    (ev : OutputEvent) : Option (State σ × Conn) :=
  match st.outputs.findIdx? (fun o => o.wl_output == wl) with
  | none => none
  | some i =>
    match st.outputs[i]? with
    | none => none
    | some o =>
      if o.river_layout.isSome then some (st, conn)
      else
        match ev with
        | .Name s =>
          let (id, conn) := conn.alloc
          let conn := conn.send (.get_layout st.layout_manager id o.wl_output ns)
          some ({ st with outputs :=
                    st.outputs.set i { o with name := some s, river_layout := some id } },
                conn)
        | .Other => some (st, conn)

/-- Incoming river_layout_v3 events. -/
inductive RiverEvent where
  | NamespaceInUse
  | LayoutDemand (view_count : Nat) (usable_width : Nat) (usable_height : Nat)
      (tags : Nat) (serial : Nat)
  | UserCommand (command : String)
  | UserCommandTags (tags : Nat)
  deriving DecidableEq, Repr

/-- Dispatch impl for RiverLayoutV3 (try_event): find the Output whose
session object is this proxy (.expect panics if absent — modelled as
none), then handle the event; the StepResult.error field is the Rust
Result (none = Ok). -/
def State.try_event (algo : Layout σ ε) (st : State σ) (conn : Conn) (layoutId : Nat)
    (ev : RiverEvent) : Option (StepResult σ ε) :=
  match st.outputs.find? (fun o => o.river_layout == some layoutId) with
  | none => none
  | some output =>
    match ev with
    | .NamespaceInUse =>
      some ⟨st, conn, some (.NamespaceInUse algo.NAMESPACE)⟩
    | .LayoutDemand view_count usable_width usable_height tags serial =>
      let (s, res) := algo.generate_layout st.layout view_count usable_width usable_height
        tags output.name
      let st := { st with layout := s }
      match res with
      | .error e => some ⟨st, conn, some (.LayoutError e)⟩
      | .ok generated_layout =>
        if generated_layout.views.length ≠ view_count then
          some ⟨st, conn, some .InvalidGeneratedLayout⟩
        else
          let conn := generated_layout.views.foldl
            (fun c r => c.send (.push_view_dimensions layoutId r.x r.y r.width r.height serial))
            conn
          let conn := conn.send (.commit layoutId generated_layout.layout_name serial)
          some ⟨st, conn, none⟩
    | .UserCommand command =>
      let (s, res) := algo.user_cmd st.layout command st.last_user_cmd_tags output.name
      let st := { st with layout := s }
      match res with
      | .error e => some ⟨st, conn, some (.LayoutError e)⟩
      | .ok _ => some ⟨st, conn, none⟩
    | .UserCommandTags tags =>
      some ⟨{ st with last_user_cmd_tags := some tags }, conn, none⟩

/-- One incoming event of any of the three dispatched interfaces. -/
inductive BridgeEvent where
  | registry (ev : RegistryEvent)
  | output (wl : Nat) (ev : OutputEvent)
  | river (layoutId : Nat) (ev : RiverEvent)
  deriving DecidableEq, Repr

/-- Dispatch a single event to its handler.  The WlRegistry and WlOutput
handlers are infallible; only try_event can produce an error. -/
def dispatch_one (algo : Layout σ ε) (st : State σ) (conn : Conn) :
    BridgeEvent → Option (StepResult σ ε)
  | .registry ev =>
    let (st, conn) := st.registry_event conn ev
    some ⟨st, conn, none⟩
  | .output wl ev =>
    (st.output_event algo.NAMESPACE conn wl ev).map fun p => ⟨p.1, p.2, none⟩
  | .river layoutId ev => st.try_event algo conn layoutId ev

/-- The dispatch loop of run, restricted to a finite list of incoming
events: events are dispatched in order and the first Err ends the run and
is returned as the run's result (the loop body is
conn.dispatch_events(&mut state)?). -/
def run_events (algo : Layout σ ε) (st : State σ) (conn : Conn) :
    List BridgeEvent → Option (StepResult σ ε)
  | [] => some ⟨st, conn, none⟩
  | ev :: rest =>
    match dispatch_one algo st conn ev with
    | none => none
    | some r =>
      match r.error with
      | some e => some ⟨r.state, r.conn, some e⟩
      | none => run_events algo r.state r.conn rest

/-- The State literal built in run after the initial handshake:
last_user_cmd_tags starts out None. -/
def initState (layout_manager : Nat) (layout : σ) (outputs : List Output) : State σ :=
  { layout_manager := layout_manager
    last_user_cmd_tags := none
    layout := layout
    outputs := outputs }

/-! Concrete fixtures used by witnesses and counterexamples. -/

/-- A sample rectangle. -/
def rect0 : Rectangle := { x := 0, y := 0, width := 60, height := 40 }

/-- A conforming sample algorithm: user commands always succeed and a
demand for n views yields n copies of rect0 under layout name "[]=". -/
def okAlgo : Layout Unit Unit :=
  { NAMESPACE := "demo"
    user_cmd := fun s _ _ _ => (s, Except.ok ())
    generate_layout := fun s vc _ _ _ _ =>
      (s, Except.ok { layout_name := "[]=", views := List.replicate vc rect0 }) }

/-- A failing sample algorithm: both operations return an error. -/
def failAlgo : Layout Unit Unit :=
  { NAMESPACE := "demo"
    user_cmd := fun s _ _ _ => (s, Except.error ())
    generate_layout := fun s _ _ _ _ _ => (s, Except.error ()) }

/-- A nonconforming sample algorithm: every demand yields exactly one
rectangle regardless of the requested view count. -/
def oneViewAlgo : Layout Unit Unit :=
  { NAMESPACE := "demo"
    user_cmd := fun s _ _ _ => (s, Except.ok ())
    generate_layout := fun s _ _ _ _ _ =>
      (s, Except.ok { layout_name := "[]=", views := [rect0] }) }

/-- A named output with an active session object (proxy id 5). -/
def out5 : Output :=
  { wl_output := 1, wl_output_version := 4, reg_name := 7
    name := some "eDP-1", river_layout := some 5 }

/-- An output that has not been named yet and has no session. -/
def outNew : Output :=
  { wl_output := 2, wl_output_version := 2, reg_name := 8
    name := none, river_layout := none }

/-- A bridge state owning just out5. -/
def st0 : State Unit :=
  { layout_manager := 0, last_user_cmd_tags := none, layout := (), outputs := [out5] }

/-- A bridge state owning just the unnamed outNew. -/
def st1 : State Unit :=
  { layout_manager := 0, last_user_cmd_tags := none, layout := (), outputs := [outNew] }

/-- An empty connection log. -/
def conn0 : Conn := { msgs := [], next_id := 9 }

/-! Helper lemmas. -/

/-- Folding Conn.send over a list appends the mapped messages in order. -/
theorem foldl_send (f : Rectangle → Msg) (rs : List Rectangle) (c : Conn) :
    rs.foldl (fun c r => c.send (f r)) c = { c with msgs := c.msgs ++ rs.map f } := by
  induction rs generalizing c with
  | nil => simp
  | cons r rs ih => rw [List.foldl_cons, ih]; simp [Conn.send]

/-- Folding the per-rectangle send of push_view_dimensions over a list of
rectangles appends the mapped messages in order. -/
theorem foldl_push (layoutId sr : Nat) (rs : List Rectangle) (c : Conn) :
    rs.foldl (fun c r => c.send (Msg.push_view_dimensions layoutId r.x r.y r.width r.height sr)) c
      = { c with msgs := c.msgs
            ++ rs.map (fun r => Msg.push_view_dimensions layoutId r.x r.y r.width r.height sr) } := by
  induction rs generalizing c with
  | nil => simp
  | cons r rs ih => rw [List.foldl_cons, ih]; simp [Conn.send]

/-- C2: on a layout demand for vc views, when the algorithm returns a
layout with exactly vc rectangles, the handler sends one
push_view_dimensions per rectangle in the order produced, each carrying
that rectangle's x, y, width, height and the demand's serial, followed by
exactly one commit with the generated layout's name and the same serial;
the number of dimension messages equals vc. -/
theorem layout_demand_conforming {σ ε : Type} (algo : Layout σ ε) (st : State σ) (conn : Conn)
    (layoutId vc uw uh tg sr : Nat) (o : Output) (s : σ) (gl : GeneratedLayout)
    (hfind : st.outputs.find? (fun o => o.river_layout == some layoutId) = some o)
    (hgen : algo.generate_layout st.layout vc uw uh tg o.name = (s, Except.ok gl))
    (hlen : gl.views.length = vc) :
    st.try_event algo conn layoutId (RiverEvent.LayoutDemand vc uw uh tg sr) =
      some ⟨{ st with layout := s },
            { conn with msgs := conn.msgs
                ++ gl.views.map (fun r => Msg.push_view_dimensions layoutId r.x r.y r.width r.height sr)
                ++ [Msg.commit layoutId gl.layout_name sr] },
            none⟩ ∧
    (gl.views.map (fun r => Msg.push_view_dimensions layoutId r.x r.y r.width r.height sr)).length = vc := by
  refine ⟨?_, by simp [hlen]⟩
  simp only [State.try_event, hfind, hgen]
  rw [if_neg (by simp [hlen])]
  rw [foldl_push]
  simp [Conn.send]

/-- Witness for layout_demand_conforming at a concrete input. -/
theorem layout_demand_conforming_witness :
    st0.try_event okAlgo conn0 5 (RiverEvent.LayoutDemand 2 100 90 1 77) =
      some ⟨{ st0 with layout := () },
            { conn0 with msgs := (conn0.msgs
                ++ (List.replicate 2 rect0).map
                    (fun r => Msg.push_view_dimensions 5 r.x r.y r.width r.height 77)
                ++ [Msg.commit 5 "[]=" 77]) },
            none⟩ ∧
    ((List.replicate 2 rect0).map
        (fun r => Msg.push_view_dimensions 5 r.x r.y r.width r.height 77)).length = 2 :=
  layout_demand_conforming okAlgo st0 conn0 5 2 100 90 1 77 out5 ()
    { layout_name := "[]=", views := List.replicate 2 rect0 } (by rfl) (by rfl) (by rfl)

/-- C3: on a layout demand for vc views, when the algorithm returns a
layout whose rectangle count differs from vc, the whole run aborts with
the distinct InvalidGeneratedLayout cause (not LayoutError), no
push_view_dimensions or commit message is sent (the connection log is
unchanged), and no later event is dispatched. -/
theorem layout_demand_mismatch_aborts {σ ε : Type} (algo : Layout σ ε) (st : State σ)
    (conn : Conn) (layoutId vc uw uh tg sr : Nat) (o : Output) (s : σ) (gl : GeneratedLayout)
    (rest : List BridgeEvent)
    (hfind : st.outputs.find? (fun o => o.river_layout == some layoutId) = some o)
    (hgen : algo.generate_layout st.layout vc uw uh tg o.name = (s, Except.ok gl))
    (hlen : gl.views.length ≠ vc) :
    run_events algo st conn
        (BridgeEvent.river layoutId (RiverEvent.LayoutDemand vc uw uh tg sr) :: rest) =
      some ⟨{ st with layout := s }, conn, some Error.InvalidGeneratedLayout⟩ := by
  simp [run_events, dispatch_one, State.try_event, hfind, hgen, hlen]

/-- Witness for layout_demand_mismatch_aborts at a concrete input: a
demand for 2 views answered with 1 rectangle aborts before the queued
tags-announcement is dispatched. -/
theorem layout_demand_mismatch_aborts_witness :
    run_events oneViewAlgo st0 conn0
        [BridgeEvent.river 5 (RiverEvent.LayoutDemand 2 100 90 1 77),
         BridgeEvent.river 5 (RiverEvent.UserCommandTags 3)] =
      some ⟨{ st0 with layout := () }, conn0, some Error.InvalidGeneratedLayout⟩ :=
  layout_demand_mismatch_aborts oneViewAlgo st0 conn0 5 2 100 90 1 77 out5 ()
    { layout_name := "[]=", views := [rect0] }
    [BridgeEvent.river 5 (RiverEvent.UserCommandTags 3)] (by rfl) (by rfl) (by decide)

/-- C8: on a layout demand, when the algorithm's generate_layout returns
an error, the whole run aborts with a LayoutError cause wrapping the
algorithm's own error value, no push_view_dimensions or commit message is
sent (the connection log is unchanged), and no later event is
dispatched. -/
theorem layout_demand_error_aborts {σ ε : Type} (algo : Layout σ ε) (st : State σ)
    (conn : Conn) (layoutId vc uw uh tg sr : Nat) (o : Output) (s : σ) (e : ε)
    (rest : List BridgeEvent)
    (hfind : st.outputs.find? (fun o => o.river_layout == some layoutId) = some o)
    (hgen : algo.generate_layout st.layout vc uw uh tg o.name = (s, Except.error e)) :
    run_events algo st conn
        (BridgeEvent.river layoutId (RiverEvent.LayoutDemand vc uw uh tg sr) :: rest) =
      some ⟨{ st with layout := s }, conn, some (Error.LayoutError e)⟩ := by
  simp [run_events, dispatch_one, State.try_event, hfind, hgen]

/-- Witness for layout_demand_error_aborts at a concrete input. -/
theorem layout_demand_error_aborts_witness :
    run_events failAlgo st0 conn0
        [BridgeEvent.river 5 (RiverEvent.LayoutDemand 1 10 10 0 4),
         BridgeEvent.river 5 (RiverEvent.UserCommandTags 3)] =
      some ⟨{ st0 with layout := () }, conn0, some (Error.LayoutError ())⟩ :=
  layout_demand_error_aborts failAlgo st0 conn0 5 1 10 10 0 4 out5 () ()
    [BridgeEvent.river 5 (RiverEvent.UserCommandTags 3)] (by rfl) (by rfl)

/-- C7: a namespace-in-use event on any active session aborts the whole
run — no later event of any session is dispatched — with a NamespaceInUse
error carrying the configured namespace string. -/
theorem namespace_in_use_aborts {σ ε : Type} (algo : Layout σ ε) (st : State σ) (conn : Conn)
    (layoutId : Nat) (o : Output) (rest : List BridgeEvent)
    (hfind : st.outputs.find? (fun o => o.river_layout == some layoutId) = some o) :
    run_events algo st conn (BridgeEvent.river layoutId RiverEvent.NamespaceInUse :: rest) =
      some ⟨st, conn, some (Error.NamespaceInUse algo.NAMESPACE)⟩ := by
  simp [run_events, dispatch_one, State.try_event, hfind]

/-- Witness for namespace_in_use_aborts at a concrete input. -/
theorem namespace_in_use_aborts_witness :
    run_events okAlgo st0 conn0
        [BridgeEvent.river 5 RiverEvent.NamespaceInUse,
         BridgeEvent.river 5 (RiverEvent.UserCommandTags 3)] =
      some ⟨st0, conn0, some (Error.NamespaceInUse "demo")⟩ :=
  namespace_in_use_aborts okAlgo st0 conn0 5 out5
    [BridgeEvent.river 5 (RiverEvent.UserCommandTags 3)] (by rfl)

/-- C1 counterexample: a user-command whose user_cmd call fails is not
logged-and-ignored — the handler returns the error, the dispatch loop
stops (the queued tags-announcement is never dispatched, so the final
state still has last_user_cmd_tags = none), and the run aborts with
LayoutError, contradicting the claim that the loop continues and the run
does not abort. -/
theorem user_cmd_error_not_ignored :
    run_events failAlgo st0 conn0
        [BridgeEvent.river 5 (RiverEvent.UserCommand "cmd"),
         BridgeEvent.river 5 (RiverEvent.UserCommandTags 3)] =
      some ⟨st0, conn0, some (Error.LayoutError ())⟩ := by
  decide

/-- C1 amended: when the algorithm's user_cmd returns an error, the whole
run aborts with a LayoutError cause wrapping the algorithm's error; no
message is sent and no later event is dispatched (the error is not
swallowed, logged or ignored). -/
theorem user_cmd_error_aborts {σ ε : Type} (algo : Layout σ ε) (st : State σ) (conn : Conn)
    (layoutId : Nat) (cmd : String) (o : Output) (s : σ) (e : ε) (rest : List BridgeEvent)
    (hfind : st.outputs.find? (fun o => o.river_layout == some layoutId) = some o)
    (hcmd : algo.user_cmd st.layout cmd st.last_user_cmd_tags o.name = (s, Except.error e)) :
    run_events algo st conn (BridgeEvent.river layoutId (RiverEvent.UserCommand cmd) :: rest) =
      some ⟨{ st with layout := s }, conn, some (Error.LayoutError e)⟩ := by
  simp [run_events, dispatch_one, State.try_event, hfind, hcmd]

/-- Witness for user_cmd_error_aborts at a concrete input. -/
theorem user_cmd_error_aborts_witness :
    run_events failAlgo st0 conn0
        [BridgeEvent.river 5 (RiverEvent.UserCommand "toggle"),
         BridgeEvent.river 5 (RiverEvent.UserCommandTags 3)] =
      some ⟨{ st0 with layout := () }, conn0, some (Error.LayoutError ())⟩ :=
  user_cmd_error_aborts failAlgo st0 conn0 5 "toggle" out5 () ()
    [BridgeEvent.river 5 (RiverEvent.UserCommandTags 3)] (by rfl) (by rfl)

/-- C9: Output teardown proceeds child-before-parent: the session object
(when present) is destroyed first, and the wl_output is released
afterwards, the release being sent only when the bound version is at
least 3. -/
theorem output_drop_order (o : Output) (conn : Conn) :
    (o.drop conn).msgs = conn.msgs
      ++ (match o.river_layout with | some rl => [Msg.destroy rl] | none => [])
      ++ (if 3 ≤ o.wl_output_version then [Msg.release o.wl_output] else []) := by
  obtain ⟨wl, ver, rn, nm, rl⟩ := o
  unfold Output.drop
  cases rl <;> by_cases h : 3 ≤ ver <;> simp [Conn.send, h]

/-- C4 counterexample: a global-removed event whose registry name (99)
matches no Output returns normally — the handler is infallible, produces
no internal-consistency error, and leaves registry and connection
untouched, so the removal is silently ignored rather than rejected. -/
theorem global_remove_unknown_not_rejected :
    st0.registry_event conn0 (RegistryEvent.GlobalRemove 99) = (st0, conn0) := by
  decide

/-- C4 amended: a global-removed event whose registry name matches no
Output is silently ignored: the handler returns without error and the
registry and connection are left unchanged. -/
theorem global_remove_unknown_ignored {σ : Type} (st : State σ) (conn : Conn) (n : Nat)
    (h : st.outputs.findIdx? (fun o => o.reg_name == n) = none) :
    st.registry_event conn (RegistryEvent.GlobalRemove n) = (st, conn) := by
  simp [State.registry_event, h]

/-- Witness for global_remove_unknown_ignored at a concrete input. -/
theorem global_remove_unknown_ignored_witness :
    st0.registry_event conn0 (RegistryEvent.GlobalRemove 99) = (st0, conn0) ∧
    st0.outputs.findIdx? (fun o => o.reg_name == 99) = none :=
  ⟨global_remove_unknown_ignored st0 conn0 99 (by decide), by decide⟩

/-- C5: for an Output found by the wl_output handler, a Negotiation
Session is created if and only if a naming event arrives while the Output
has no session: with no session, a Name event records the name and
creates the session (one get_layout request under the caller's namespace)
in the same step, so the session exists only after the name does; with a
session already present any event is a no-op (idempotent, no duplicate
session, no error); and with no session a non-naming event creates
nothing. -/
theorem naming_creates_session_iff {σ : Type} (ns : String) (st : State σ) (conn : Conn)
    (wl : Nat) (ev : OutputEvent) (i : Nat) (o : Output)
    (hidx : st.outputs.findIdx? (fun o => o.wl_output == wl) = some i)
    (hget : st.outputs[i]? = some o) :
    (o.river_layout.isSome = true → st.output_event ns conn wl ev = some (st, conn)) ∧
    (o.river_layout = none → ∀ s, ev = OutputEvent.Name s →
      st.output_event ns conn wl ev =
        some
          ({ st with
              outputs := st.outputs.set i
                  { o with name := some s, river_layout := some conn.next_id } },
           { conn with
              next_id := conn.next_id + 1,
              msgs := conn.msgs ++ [Msg.get_layout st.layout_manager conn.next_id o.wl_output ns] })) ∧
    (o.river_layout = none → ev = OutputEvent.Other →
      st.output_event ns conn wl ev = some (st, conn)) := by
  refine ⟨?_, ?_, ?_⟩
  · intro h
    simp [State.output_event, hidx, hget, h]
  · rintro h s rfl
    simp [State.output_event, hidx, hget, h, Conn.alloc, Conn.send]
  · rintro h rfl
    simp [State.output_event, hidx, hget, h]

/-- Witness for naming_creates_session_iff at a concrete input: the
unnamed outNew receives its first naming event and gets a session bound
to the fresh proxy id 9. -/
theorem naming_creates_session_iff_witness :
    st1.output_event "demo" conn0 2 (OutputEvent.Name "eDP-1") =
      some ({ st1 with outputs := [{ outNew with name := some "eDP-1", river_layout := some 9 }] },
            { msgs := [Msg.get_layout 0 9 2 "demo"], next_id := 10 }) :=
  (naming_creates_session_iff "demo" st1 conn0 2 (OutputEvent.Name "eDP-1") 0 outNew
    (by rfl) (by rfl)).2.1 (by rfl) "eDP-1" rfl

/-- C6: the pending-tags value starts out absent in the initial bridge
state; a tags-announcement stores the announced value and sends no reply;
a user-command invokes user_cmd with exactly the current pending-tags
value (so it observes the most recent announcement, or none when nothing
was ever announced) and the value is retained, not cleared, in the
resulting state. -/
theorem pending_tags_flow {σ ε : Type} (algo : Layout σ ε) (m : Nat) (lay : σ)
    (outs : List Output) (st : State σ) (conn : Conn) (layoutId : Nat) (o : Output)
    (t : Nat) (cmd : String)
    (hfind : st.outputs.find? (fun o => o.river_layout == some layoutId) = some o) :
    (initState m lay outs).last_user_cmd_tags = none ∧
    st.try_event algo conn layoutId (RiverEvent.UserCommandTags t) =
      some ⟨{ st with last_user_cmd_tags := some t }, conn, none⟩ ∧
    st.try_event algo conn layoutId (RiverEvent.UserCommand cmd) =
      some ⟨{ st with layout := (algo.user_cmd st.layout cmd st.last_user_cmd_tags o.name).1 },
            conn,
            match (algo.user_cmd st.layout cmd st.last_user_cmd_tags o.name).2 with
            | Except.ok _ => none
            | Except.error e => some (Error.LayoutError e)⟩ := by
  refine ⟨rfl, ?_, ?_⟩
  · simp [State.try_event, hfind]
  · simp only [State.try_event, hfind]
    rcases h : algo.user_cmd st.layout cmd st.last_user_cmd_tags o.name with ⟨s, res⟩
    simp only [h]
    cases res <;> simp

/-- Witness for pending_tags_flow at a concrete input. -/
theorem pending_tags_flow_witness :
    (initState 0 () []).last_user_cmd_tags = none ∧
    st0.try_event okAlgo conn0 5 (RiverEvent.UserCommandTags 4) =
      some ⟨{ st0 with last_user_cmd_tags := some 4 }, conn0, none⟩ ∧
    st0.try_event okAlgo conn0 5 (RiverEvent.UserCommand "left") =
      some ⟨{ st0 with layout := (okAlgo.user_cmd () "left" none (some "eDP-1")).1 }, conn0,
            match (okAlgo.user_cmd () "left" none (some "eDP-1")).2 with
            | Except.ok _ => none
            | Except.error e => some (Error.LayoutError e)⟩ :=
  pending_tags_flow okAlgo 0 () [] st0 conn0 5 out5 4 "left" (by rfl)

/-- The registry handler never touches the pending-tags value. -/
theorem registry_event_tags {σ : Type} (st : State σ) (conn : Conn) (ev : RegistryEvent) :
    (st.registry_event conn ev).1.last_user_cmd_tags = st.last_user_cmd_tags := by
  unfold State.registry_event
  rcases ev with ⟨name, isOut, ver⟩ | name
  · cases isOut <;> rfl
  · cases h : st.outputs.findIdx? (fun o => o.reg_name == name) with
    | none => simp [h]
    | some i =>
      cases hg : st.outputs[i]? with
      | none => simp [h, hg]
      | some o => simp [h, hg]

/-- The wl_output handler never touches the pending-tags value. -/
theorem output_event_tags {σ : Type} (ns : String) (st : State σ) (conn : Conn) (wl : Nat)
    (ev : OutputEvent) (p : State σ × Conn)
    (h : st.output_event ns conn wl ev = some p) :
    p.1.last_user_cmd_tags = st.last_user_cmd_tags := by
  unfold State.output_event at h
  split at h
  · exact Option.noConfusion h
  · split at h
    · exact Option.noConfusion h
    · split at h
      · injection h with h2; subst h2; rfl
      · split at h
        · injection h with h2; subst h2; rfl
        · injection h with h2; subst h2; rfl

/-- C10: dispatching one event changes the pending-tags value only when
the event is a tags-announcement, in which case it becomes the announced
value; every other event — in particular every layout demand, whose own
tags field is passed to generate_layout but never stored — leaves it
exactly as it was. -/
theorem pending_tags_frame {σ ε : Type} (algo : Layout σ ε) (st : State σ) (conn : Conn)
    (ev : BridgeEvent) (r : StepResult σ ε)
    (h : dispatch_one algo st conn ev = some r) :
    r.state.last_user_cmd_tags =
      match ev with
      | BridgeEvent.river _ (RiverEvent.UserCommandTags t) => some t
      | _ => st.last_user_cmd_tags := by
  cases ev with
  | registry rev =>
    have ht := registry_event_tags st conn rev
    simp only [dispatch_one] at h
    rcases hr : st.registry_event conn rev with ⟨st2, conn2⟩
    rw [hr] at h ht
    injection h with h2
    subst h2
    exact ht
  | output wl oev =>
    simp only [dispatch_one] at h
    cases hmap : st.output_event algo.NAMESPACE conn wl oev with
    | none => rw [hmap] at h; exact Option.noConfusion h
    | some p =>
      rw [hmap] at h
      injection h with h2
      subst h2
      exact output_event_tags algo.NAMESPACE st conn wl oev p hmap
  | river lid rev =>
    simp only [dispatch_one] at h
    cases hfind : st.outputs.find? (fun o => o.river_layout == some lid) with
    | none =>
      have E : st.try_event algo conn lid rev = none := by
        simp only [State.try_event, hfind]
      rw [E] at h
      exact Option.noConfusion h
    | some o =>
      cases rev with
      | NamespaceInUse =>
        have E : st.try_event algo conn lid RiverEvent.NamespaceInUse =
            some ⟨st, conn, some (Error.NamespaceInUse algo.NAMESPACE)⟩ := by
          simp [State.try_event, hfind]
        rw [E] at h; injection h with h2; subst h2; rfl
      | UserCommandTags t =>
        have E : st.try_event algo conn lid (RiverEvent.UserCommandTags t) =
            some ⟨{ st with last_user_cmd_tags := some t }, conn, none⟩ := by
          simp [State.try_event, hfind]
        rw [E] at h; injection h with h2; subst h2; rfl
      | UserCommand cmd =>
        rcases hc : algo.user_cmd st.layout cmd st.last_user_cmd_tags o.name with ⟨s, res⟩
        cases res with
        | error e =>
          have E : st.try_event algo conn lid (RiverEvent.UserCommand cmd) =
              some ⟨{ st with layout := s }, conn, some (Error.LayoutError e)⟩ := by
            simp [State.try_event, hfind, hc]
          rw [E] at h; injection h with h2; subst h2; rfl
        | ok u =>
          have E : st.try_event algo conn lid (RiverEvent.UserCommand cmd) =
              some ⟨{ st with layout := s }, conn, none⟩ := by
            simp [State.try_event, hfind, hc]
          rw [E] at h; injection h with h2; subst h2; rfl
      | LayoutDemand vc uw uh tg sr =>
        rcases hg : algo.generate_layout st.layout vc uw uh tg o.name with ⟨s, res⟩
        cases res with
        | error e =>
          have E : st.try_event algo conn lid (RiverEvent.LayoutDemand vc uw uh tg sr) =
              some ⟨{ st with layout := s }, conn, some (Error.LayoutError e)⟩ := by
            simp [State.try_event, hfind, hg]
          rw [E] at h; injection h with h2; subst h2; rfl
        | ok gl =>
          by_cases hl : gl.views.length ≠ vc
          · have E : st.try_event algo conn lid (RiverEvent.LayoutDemand vc uw uh tg sr) =
                some ⟨{ st with layout := s }, conn, some Error.InvalidGeneratedLayout⟩ := by
              simp only [State.try_event, hfind, hg]
              rw [if_pos hl]
            rw [E] at h; injection h with h2; subst h2; rfl
          · have E : st.try_event algo conn lid (RiverEvent.LayoutDemand vc uw uh tg sr) =
                some ⟨{ st with layout := s },
                  ((gl.views.foldl
                      (fun c r => c.send (Msg.push_view_dimensions lid r.x r.y r.width r.height sr))
                      conn).send (Msg.commit lid gl.layout_name sr)),
                  none⟩ := by
              simp only [State.try_event, hfind, hg]
              rw [if_neg hl]
            rw [E] at h; injection h with h2; subst h2; rfl

/-- Witness for pending_tags_frame at a concrete input: a layout demand
carrying tags 6 leaves the pending-tags value untouched. -/
theorem pending_tags_frame_witness :
    (dispatch_one okAlgo st0 conn0 (BridgeEvent.river 5 (RiverEvent.LayoutDemand 1 10 10 6 2))).isSome = true ∧
    ((dispatch_one okAlgo st0 conn0
        (BridgeEvent.river 5 (RiverEvent.LayoutDemand 1 10 10 6 2))).getD
      ⟨st0, conn0, none⟩).state.last_user_cmd_tags = st0.last_user_cmd_tags := by
  refine ⟨by rfl, ?_⟩
  have h := pending_tags_frame okAlgo st0 conn0
    (BridgeEvent.river 5 (RiverEvent.LayoutDemand 1 10 10 6 2))
    (⟨{ st0 with layout := () },
      { conn0 with msgs := (conn0.msgs
          ++ (List.replicate 1 rect0).map
              (fun r => Msg.push_view_dimensions 5 r.x r.y r.width r.height 2)
          ++ [Msg.commit 5 "[]=" 2]) }, none⟩) (by rfl)
  exact h

end RiverLayout
